import Mathlib

/-!
Shallow embedding of the authentication, identity-resolution and
authorization core of the project-management backend
(src/app/api/routes_auth.py, src/app/api/routes_project.py,
src/app/api/routes_document.py).

External collaborators — the user / project / document lookup services, the
password hash comparison (bcrypt.checkpw) and the document storage service —
live outside src/ and are taken as explicit function parameters, mirroring the
collaborator interfaces the specification lists (lookup_user_by_id,
lookup_user_by_email, lookup_project, ...).  All times are integer Unix
seconds; a timedelta is a number of seconds.
-/

namespace PMAPI

/-- User record: fields read by the routes (id, email, password_hash,
is_active), per the data model and the core user entity. -/
structure User where
  id : Nat
  email : String
  password_hash : String
  is_active : Bool
deriving Repr, DecidableEq

/-- Project record: fields read by the routes.  `owner_id` and `participants`
are the fields `ensure_project_owner_helper` inspects
(routes_document.py line 55). -/
structure Project where
  id : Nat
  name : String
  description : String
  owner_id : Nat
  participants : List Nat
deriving Repr, DecidableEq

/-- Document record: the fields routes_document.py copies into
DocumentResponse (upload timestamp omitted; it is never branched on). -/
structure Document where
  id : Nat
  original_filename : String
  file_size : Nat
  content_type : String
  project_id : Nat
  uploaded_by : Nat
deriving Repr, DecidableEq

/-- The claim set built by create_access_token and read by get_current_user.
`sub` and `email` are optional because get_current_user reads them with
payload.get, which yields None when the claim is absent. -/
structure JWTPayload where
  sub : Option String
  email : Option String
  iat : Nat
  exp : Nat
deriving Repr, DecidableEq

/-- A compact signed token as produced by PyJWT jwt.encode: the claim set
together with the signing key and the algorithm recorded in the header.
The signature is sound and unforgeable in this model: verification under a
key succeeds exactly when the token was encoded under that same key. -/
structure JWT where
  payload : JWTPayload
  key : String
  alg : String
deriving Repr, DecidableEq

/-- Failures of PyJWT jwt.decode.  Both constructors are subtypes of
InvalidTokenError in PyJWT: `expired` is ExpiredSignatureError, `invalid`
covers bad signature / wrong algorithm.  They are distinguishable values. -/
inductive TokenError where
  | expired
  | invalid
deriving Repr, DecidableEq

/-- The data of a raised fastapi.HTTPException: status_code and detail. -/
structure HTTPException where
  status_code : Nat
  detail : String
deriving Repr, DecidableEq

/-- Outcome of get_current_user: a returned user, a raised HTTPException, or
an uncaught Python ValueError escaping the handler (an internal server
error, not an HTTP 401 response). -/
inductive AuthResult where
  | ok (user : User)
  | http (e : HTTPException)
  | valueError
deriving Repr, DecidableEq

/-- Outcome of a route handler: a returned value, an implicit `return None`
falling off the end of the Python function (FastAPI then sends 200 with a
null body), or a raised HTTPException. -/
inductive RouteResult (α : Type) where
  | ok (value : α)
  | empty
  | http (e : HTTPException)
deriving Repr, DecidableEq

/-- routes_auth.py line 41. -/
def ALGORITHM : String := "HS256"

/-- routes_auth.py line 42. -/
def ACCESS_TOKEN_EXPIRE_MINUTES : Nat := 60

/-- Models PyJWT jwt.encode(payload, key, algorithm): packages the claims
with the signing key and algorithm identifier. -/
def jwt_encode (payload : JWTPayload) (key : String) (alg : String) : JWT :=
  ⟨payload, key, alg⟩

/-- Models PyJWT jwt.decode(token, key, algorithms) evaluated at time `now`:
the signature verifies exactly when the token was signed with `key` and its
algorithm is in the accepted list (otherwise InvalidTokenError), and the exp
claim is enforced (ExpiredSignatureError when exp ≤ now, PyJWT leeway 0). -/
def jwt_decode (token : JWT) (key : String) (algs : List String) (now : Nat) :
    Except TokenError JWTPayload :=
  if token.key = key ∧ token.alg ∈ algs then
    if token.payload.exp ≤ now then .error .expired
    else .ok token.payload
  else .error .invalid

/-- routes_auth.py lines 46-68 (create_access_token).  `SECRET_KEY` is the
process-wide signing key (line 43), passed explicitly here; `now` stands for
datetime.now(timezone.utc); `expires_delta` is the optional timedelta in
seconds.  A Python timedelta of 0 is falsy, so `expires_delta or default`
falls back to the default also for 0. -/
def create_access_token (SECRET_KEY : String) (user_id : Nat) (email : String)
    (now : Nat) (expires_delta : Option Nat) : JWT :=
  let delta :=
    match expires_delta with
    | some d => if d = 0 then ACCESS_TOKEN_EXPIRE_MINUTES * 60 else d
    | none => ACCESS_TOKEN_EXPIRE_MINUTES * 60
  let expire := now + delta
  jwt_encode ⟨some (toString user_id), some email, now, expire⟩ SECRET_KEY ALGORITHM

/-- Models Python int(s) on a decimal string: succeeds on non-empty strings
of digits (in particular on every output of str(user_id)), returning their
decimal value, and raises ValueError (modelled as none) on any other
string, such as a non-numeric sub claim. -/
def py_int (s : String) : Option Nat :=
  if s.data ≠ [] ∧ s.data.all (fun c => c.isDigit) then
    some (s.data.foldl (fun n c => n * 10 + (c.toNat - Char.toNat '0')) 0)
  else none

/-- routes_auth.py lines 70-100 (get_current_user).  `get_by_id` is the
external user-lookup collaborator (service.user_repository.get_by_id).
Control flow of the source: jwt.decode may raise InvalidTokenError, which
the except clause maps to 401 "Invalid token"; a missing sub or email claim
raises 401 "Invalid token payload"; int(user_id) may raise ValueError, which
no except clause catches; a missing or inactive user raises 401
"Inactive or unknown user"; otherwise the user is returned. -/
def get_current_user (SECRET_KEY : String) (get_by_id : Nat → Option User)
    (token : JWT) (now : Nat) : AuthResult :=
  match jwt_decode token SECRET_KEY [ALGORITHM] now with
  | .error _ => .http ⟨401, "Invalid token"⟩
  | .ok payload =>
    match payload.sub, payload.email with
    | some user_id, some _email =>
      match py_int user_id with
      | none => .valueError
      | some uid =>
        match get_by_id uid with
        | none => .http ⟨401, "Inactive or unknown user"⟩
        | some user =>
          if user.is_active then .ok user
          else .http ⟨401, "Inactive or unknown user"⟩
    | _, _ => .http ⟨401, "Invalid token payload"⟩

/-- routes_auth.py lines 124-157 (login_user).  `get_by_email` is the
external lookup (service.get_by_email raises UserNotFoundError when absent,
which the except clause maps to 404 with the error's message — modelled as
"User not found", the message living in the core package outside src/);
`checkpw` is bcrypt.checkpw on (plaintext, stored hash).  Source order: the
is_active check precedes the password check, and the HTTPExceptions raised
inside the try block are not UserNotFoundError, so they propagate. -/
def login_user (SECRET_KEY : String) (get_by_email : String → Option User)
    (checkpw : String → String → Bool) (email password : String) (now : Nat) :
    RouteResult (JWT × String) :=
  match get_by_email email with
  | none => .http ⟨404, "User not found"⟩
  | some user =>
    if ¬ user.is_active then .http ⟨401, "User is not active"⟩
    else if ¬ checkpw password user.password_hash then
      .http ⟨401, "Invalid email or password"⟩
    else .ok (create_access_token SECRET_KEY user.id user.email now none, "bearer")

/-- Failures of the core project service seen by routes_project.py:
ProjectNotFoundError is a distinguished subclass of ProjectServiceError. -/
inductive ProjectServiceError where
  | notFound (msg : String)
  | service (msg : String)
deriving Repr, DecidableEq

/-- routes_project.py lines 18-23 (create_project, POST /projects).  `create`
is the external service.create_project(name, description, owner_id); its
ProjectServiceError is mapped to 400 "Unable to create project".  The
handler declares no authentication dependency: `owner_id` comes from the
request payload, and no User argument exists. -/
def create_project (create : String → String → Nat → Except ProjectServiceError Project)
    (name description : String) (owner_id : Nat) : RouteResult Project :=
  match create name description owner_id with
  | .ok p => .ok p
  | .error _ => .http ⟨400, "Unable to create project"⟩

/-- routes_project.py lines 32-41 (get_project_by_id, GET /projects/:id).
`get_project` is the external service.get_project.  No authentication
dependency is declared. -/
def get_project_by_id (get_project : Nat → Option Project)
    (project_id : Nat) : RouteResult Project :=
  match get_project project_id with
  | none => .http ⟨404, "Project not found"⟩
  | some p => .ok p

/-- routes_project.py lines 43-49 (update_project, PUT /projects/:id).
`update` is the external service.update_project; its ValueError is mapped to
400 with the error message.  No authentication dependency is declared. -/
def update_project (update : Nat → String → String → Except String Project)
    (project_id : Nat) (name description : String) : RouteResult Project :=
  match update project_id name description with
  | .ok p => .ok p
  | .error msg => .http ⟨400, msg⟩

/-- routes_project.py lines 51-58 (delete_project, DELETE /projects/:id).
`del_project` is the external service.delete_project; ProjectNotFoundError
maps to 404, other ProjectServiceError to 400.  No authentication dependency
is declared. -/
def delete_project (del_project : Nat → Except ProjectServiceError Unit)
    (project_id : Nat) : RouteResult Unit :=
  match del_project project_id with
  | .ok _ => .ok ()
  | .error (.notFound msg) => .http ⟨404, msg⟩
  | .error (.service msg) => .http ⟨400, msg⟩

/-- Request-level dispatch of PUT /projects/:project_id as the app serves it
(main.py includes routes_project.router).  FastAPI resolves exactly the
dependencies the handler declares; update_project declares only the path
parameter, the payload and the project service — there is no
Depends(get_current_user) — so the request's bearer token, the signing key,
the user store and the clock are never consulted. -/
def handle_update_project (_SECRET_KEY : String) (_get_by_id : Nat → Option User)
    (update : Nat → String → String → Except String Project)
    (_bearer : Option JWT) (_now : Nat)
    (project_id : Nat) (name description : String) : RouteResult Project :=
  update_project update project_id name description

/-- Request-level dispatch of POST /projects: as with handle_update_project,
the create_project handler declares no authentication dependency, so the
bearer token of the request is never read. -/
def handle_create_project (_SECRET_KEY : String) (_get_by_id : Nat → Option User)
    (create : String → String → Nat → Except ProjectServiceError Project)
    (_bearer : Option JWT) (_now : Nat)
    (name description : String) (owner_id : Nat) : RouteResult Project :=
  create_project create name description owner_id

/-- Request-level dispatch of GET /projects/:project_id: no authentication
dependency is declared by the handler. -/
def handle_get_project_by_id (_SECRET_KEY : String) (_get_by_id : Nat → Option User)
    (get_project : Nat → Option Project) (_bearer : Option JWT) (_now : Nat)
    (project_id : Nat) : RouteResult Project :=
  get_project_by_id get_project project_id

/-- Request-level dispatch of DELETE /projects/:project_id: no authentication
dependency is declared by the handler. -/
def handle_delete_project (_SECRET_KEY : String) (_get_by_id : Nat → Option User)
    (del_project : Nat → Except ProjectServiceError Unit)
    (_bearer : Option JWT) (_now : Nat) (project_id : Nat) : RouteResult Unit :=
  delete_project del_project project_id

/-- routes_document.py lines 34-57 (ensure_project_owner_helper).
`get_project` is the external project_service.get_project.  Source order: a
missing project raises 404 "Project not found" first; then the handler
raises 403 only when the requester is neither the owner nor a participant
(line 55: `project.owner_id != current_user.id and current_user.id not in
project.participants`); otherwise the project is returned. -/
def ensure_project_owner_helper (get_project : Nat → Option Project)
    (project_id : Nat) (current_user : User) : Except HTTPException Project :=
  match get_project project_id with
  | none => .error ⟨404, "Project not found"⟩
  | some project =>
    if project.owner_id ≠ current_user.id ∧ current_user.id ∉ project.participants then
      .error ⟨403, "Not authorized to view this project"⟩
    else .ok project

/-- routes_document.py lines 61-89 (get_documents_from_project).  `get_docs`
is the external service.get_documents_for_project: a ValueError maps to 400;
the source's `if result is None: return []` branch is modelled by the
collaborator yielding the (possibly empty) list of documents.  The handler
depends on get_current_user, so `current_user` is the resolved identity. -/
def get_documents_from_project (get_project : Nat → Option Project)
    (get_docs : Nat → Except String (List Document))
    (project_id : Nat) (current_user : User) : RouteResult (List Document) :=
  match ensure_project_owner_helper get_project project_id current_user with
  | .error e => .http e
  | .ok _ =>
    match get_docs project_id with
    | .ok docs => .ok docs
    | .error msg => .http ⟨400, msg⟩

/-- routes_document.py lines 91-129 (upload_document).  `upload` is the
external service.upload_document restricted to the arguments the routes
branch on (project_id, current_user.id); a ValueError maps to 400. -/
def upload_document (get_project : Nat → Option Project)
    (upload : Nat → Nat → Except String Document)
    (project_id : Nat) (current_user : User) : RouteResult Document :=
  match ensure_project_owner_helper get_project project_id current_user with
  | .error e => .http e
  | .ok _ =>
    match upload project_id current_user.id with
    | .ok d => .ok d
    | .error msg => .http ⟨400, msg⟩

/-- routes_document.py lines 131-162 (get_document_from_project).  Scans the
project's documents for the requested id; when none matches it raises 404
"Document not found" (that HTTPException is not a ValueError, so the except
clause does not catch it). -/
def get_document_from_project (get_project : Nat → Option Project)
    (get_docs : Nat → Except String (List Document))
    (project_id document_id : Nat) (current_user : User) : RouteResult Document :=
  match ensure_project_owner_helper get_project project_id current_user with
  | .error e => .http e
  | .ok _ =>
    match get_docs project_id with
    | .error msg => .http ⟨400, msg⟩
    | .ok docs =>
      match docs.find? (fun d => d.id == document_id) with
      | some doc => .ok doc
      | none => .http ⟨404, "Document not found"⟩

/-- routes_document.py lines 164-192 (delete_document_from_project).
`del_document` is the external service.delete_document(document_id,
current_user.id); a ValueError maps to 400.  The only route-level
authorization is ensure_project_owner_helper. -/
def delete_document_from_project (get_project : Nat → Option Project)
    (del_document : Nat → Nat → Except String Unit)
    (project_id document_id : Nat) (current_user : User) : RouteResult String :=
  match ensure_project_owner_helper get_project project_id current_user with
  | .error e => .http e
  | .ok _ =>
    match del_document document_id current_user.id with
    | .ok _ => .ok "Document deleted successfully"
    | .error msg => .http ⟨400, msg⟩

/-- routes_document.py lines 195-225 (get_document_metadata).  Same scan as
get_document_from_project, but when no document matches the loop ends and
the Python function falls off its end, returning None (modelled as .empty —
a 200 response with a null body); a ValueError from the service maps to 404
here (line 225). -/
def get_document_metadata (get_project : Nat → Option Project)
    (get_docs : Nat → Except String (List Document))
    (project_id document_id : Nat) (current_user : User) : RouteResult Document :=
  match ensure_project_owner_helper get_project project_id current_user with
  | .error e => .http e
  | .ok _ =>
    match get_docs project_id with
    | .error msg => .http ⟨404, msg⟩
    | .ok docs =>
      match docs.find? (fun d => d.id == document_id) with
      | some doc => .ok doc
      | none => .empty

/-- C1: the claim says every protected project and document operation passes
bearer-token identity resolution (get_current_user) before the operation
runs, so project create / read-by-id / update / delete never execute for an
unauthenticated requester.  On the code this fails: the four handlers of
routes_project.py declare no get_current_user dependency, so at request
level their outcome is independent of every authentication input (signing
key, user store, bearer token, clock), and a request carrying no bearer
token at all still executes the update. -/
theorem C1_project_routes_execute_without_authentication :
    (∀ k g upd bearer now pid nm ds,
        handle_update_project k g upd bearer now pid nm ds
          = update_project upd pid nm ds)
    ∧ (∀ k g cr bearer now nm ds oid,
        handle_create_project k g cr bearer now nm ds oid
          = create_project cr nm ds oid)
    ∧ (∀ k g gp bearer now pid,
        handle_get_project_by_id k g gp bearer now pid
          = get_project_by_id gp pid)
    ∧ (∀ k g dp bearer now pid,
        handle_delete_project k g dp bearer now pid
          = delete_project dp pid)
    ∧ handle_update_project "key" (fun _ => none)
        (fun pid nm ds => .ok ⟨pid, nm, ds, 7, []⟩) none 0 1 "n" "d"
        = .ok ⟨1, "n", "d", 7, []⟩ := by
  exact ⟨fun _ _ _ _ _ _ _ _ => rfl, fun _ _ _ _ _ _ _ _ => rfl,
    fun _ _ _ _ _ _ => rfl, fun _ _ _ _ _ _ => rfl, rfl⟩

/-- C2: the claim (and the docstring of ensure_project_owner_helper) says a
document write or delete is permitted only for the owner of the parent
project, a mere participant receiving 403 Forbidden.  On the code this
fails: the guard at routes_document.py line 55 raises 403 only when the
requester is neither owner nor participant, so a participant (id 20 in a
project owned by 10) passes the guard of the upload and delete routes and
the operation proceeds. -/
theorem C2_participant_passes_document_write_and_delete :
    ensure_project_owner_helper
        (fun pid => if pid = 1 then some ⟨1, "p", "d", 10, [20]⟩ else none) 1
        ⟨20, "p@x.com", "h", true⟩
      = .ok ⟨1, "p", "d", 10, [20]⟩
    ∧ delete_document_from_project
        (fun pid => if pid = 1 then some ⟨1, "p", "d", 10, [20]⟩ else none)
        (fun _ _ => .ok ()) 1 5 ⟨20, "p@x.com", "h", true⟩
      = .ok "Document deleted successfully"
    ∧ upload_document
        (fun pid => if pid = 1 then some ⟨1, "p", "d", 10, [20]⟩ else none)
        (fun pid uid => .ok ⟨9, "f.txt", 3, "text/plain", pid, uid⟩) 1
        ⟨20, "p@x.com", "h", true⟩
      = .ok ⟨9, "f.txt", 3, "text/plain", 1, 20⟩ := by
  exact ⟨rfl, rfl, rfl⟩

/-- C3: validating a token issued at time t with time-to-live ttl at any now
with t ≤ now < t + ttl succeeds and yields claims whose sub is the string
encoding of the user id and whose email is the given email; the default ttl
is 60 minutes. -/
theorem C3_issue_validate_roundtrip (k email : String) (uid t ttl now : Nat)
    (h1 : t ≤ now) (h2 : now < t + ttl) :
    jwt_decode (create_access_token k uid email t (some ttl)) k [ALGORITHM] now
      = .ok ⟨some (toString uid), some email, t, t + ttl⟩
    ∧ (create_access_token k uid email t none).payload.exp = t + 60 * 60
    ∧ ACCESS_TOKEN_EXPIRE_MINUTES = 60 := by
  have httl : ¬ ttl = 0 := by omega
  have hlt : ¬ t + ttl ≤ now := by omega
  refine ⟨?_, rfl, rfl⟩
  simp [create_access_token, jwt_encode, jwt_decode, httl, hlt]

/-- Witness for C3 at k = "key", uid = 1, email = "a@x.com", t = 0,
ttl = 100, now = 50. -/
theorem C3_issue_validate_roundtrip_witness :
    (0 : Nat) ≤ 50 ∧ (50 : Nat) < 0 + 100 ∧
    (jwt_decode (create_access_token "key" 1 "a@x.com" 0 (some 100)) "key"
        [ALGORITHM] 50
      = .ok ⟨some (toString 1), some "a@x.com", 0, 0 + 100⟩
    ∧ (create_access_token "key" 1 "a@x.com" 0 none).payload.exp = 0 + 60 * 60
    ∧ ACCESS_TOKEN_EXPIRE_MINUTES = 60) :=
  ⟨by omega, by omega,
    C3_issue_validate_roundtrip "key" "a@x.com" 1 0 100 50 (by omega) (by omega)⟩

/-- C4: validating a token issued at t with time-to-live ttl at any now with
now ≥ t + ttl fails with the expired-token error, which is a value
distinguishable from the other invalid-token failure, and get_current_user
rejects the request with a 401 response. -/
theorem C4_expired_token_rejected (k email : String) (uid t ttl now : Nat)
    (hpos : 0 < ttl) (h : t + ttl ≤ now) :
    jwt_decode (create_access_token k uid email t (some ttl)) k [ALGORITHM] now
      = .error .expired
    ∧ TokenError.expired ≠ TokenError.invalid
    ∧ ∀ g : Nat → Option User,
        get_current_user k g (create_access_token k uid email t (some ttl)) now
          = .http ⟨401, "Invalid token"⟩ := by
  have httl : ¬ ttl = 0 := by omega
  have hdec : jwt_decode (create_access_token k uid email t (some ttl)) k
      [ALGORITHM] now = .error .expired := by
    simp [create_access_token, jwt_encode, jwt_decode, httl, h]
  exact ⟨hdec, by simp, fun g => by simp [get_current_user, hdec]⟩

/-- Witness for C4 at k = "key", uid = 1, email = "a@x.com", t = 0,
ttl = 100, now = 100. -/
theorem C4_expired_token_rejected_witness :
    (0 : Nat) < 100 ∧ (0 : Nat) + 100 ≤ 100 ∧
    (jwt_decode (create_access_token "key" 1 "a@x.com" 0 (some 100)) "key"
        [ALGORITHM] 100
      = .error .expired
    ∧ TokenError.expired ≠ TokenError.invalid
    ∧ ∀ g : Nat → Option User,
        get_current_user "key" g (create_access_token "key" 1 "a@x.com" 0 (some 100)) 100
          = .http ⟨401, "Invalid token"⟩) :=
  ⟨by omega, by omega,
    C4_expired_token_rejected "key" "a@x.com" 1 0 100 100 (by omega) (by omega)⟩

/-- C5: for a validly signed (same key, HS256), unexpired token whose sub
claim references user id uid, identity resolution fails with 401 when that
user is absent from the store or inactive, and returns the full user record
when the user exists and is active. -/
theorem C5_resolver_rejects_missing_or_inactive (k s email : String)
    (uid iat exp now : Nat) (g : Nat → Option User)
    (hexp : now < exp) (hsub : py_int s = some uid) :
    (g uid = none →
      get_current_user k g ⟨⟨some s, some email, iat, exp⟩, k, ALGORITHM⟩ now
        = .http ⟨401, "Inactive or unknown user"⟩)
    ∧ (∀ u, g uid = some u → u.is_active = false →
      get_current_user k g ⟨⟨some s, some email, iat, exp⟩, k, ALGORITHM⟩ now
        = .http ⟨401, "Inactive or unknown user"⟩)
    ∧ (∀ u, g uid = some u → u.is_active = true →
      get_current_user k g ⟨⟨some s, some email, iat, exp⟩, k, ALGORITHM⟩ now
        = .ok u) := by
  have hlt : ¬ exp ≤ now := by omega
  refine ⟨fun hnone => ?_, fun u hu hact => ?_, fun u hu hact => ?_⟩
  · simp [get_current_user, jwt_decode, hlt, hsub, hnone]
  · simp [get_current_user, jwt_decode, hlt, hsub, hu, hact]
  · simp [get_current_user, jwt_decode, hlt, hsub, hu, hact]

/-- Witness for C5 at a store holding inactive user 1 and active user 2,
exercising the absent, inactive and active branches. -/
theorem C5_resolver_rejects_missing_or_inactive_witness :
    ((3 : Nat) < 100 ∧ py_int "1" = some 1 ∧
      ((fun i => if i = 1 then some (⟨1, "a@x.com", "h", false⟩ : User)
            else if i = 2 then some ⟨2, "b@x.com", "h", true⟩ else none) 1
          = some ⟨1, "a@x.com", "h", false⟩ ∧
        get_current_user "key"
          (fun i => if i = 1 then some (⟨1, "a@x.com", "h", false⟩ : User)
            else if i = 2 then some ⟨2, "b@x.com", "h", true⟩ else none)
          ⟨⟨some "1", some "a@x.com", 0, 100⟩, "key", ALGORITHM⟩ 3
          = .http ⟨401, "Inactive or unknown user"⟩)) := by
  refine ⟨by omega, by decide, rfl, ?_⟩
  exact (C5_resolver_rejects_missing_or_inactive "key" "1" "a@x.com" 1 0 100 3
    (fun i => if i = 1 then some ⟨1, "a@x.com", "h", false⟩
      else if i = 2 then some ⟨2, "b@x.com", "h", true⟩ else none)
    (by omega) (by decide)).2.1 ⟨1, "a@x.com", "h", false⟩ rfl rfl

/-- C6: for every document operation, a nonexistent parent project yields
404 "Project not found" regardless of who the requester is: the existence
check in ensure_project_owner_helper runs before any permission on the
requester is evaluated, and every document route calls the helper first. -/
theorem C6_missing_project_yields_not_found (gp : Nat → Option Project)
    (gd : Nat → Except String (List Document))
    (upl : Nat → Nat → Except String Document)
    (dd : Nat → Nat → Except String Unit)
    (pid did : Nat) (u : User) (h : gp pid = none) :
    ensure_project_owner_helper gp pid u = .error ⟨404, "Project not found"⟩
    ∧ get_documents_from_project gp gd pid u = .http ⟨404, "Project not found"⟩
    ∧ upload_document gp upl pid u = .http ⟨404, "Project not found"⟩
    ∧ get_document_from_project gp gd pid did u = .http ⟨404, "Project not found"⟩
    ∧ delete_document_from_project gp dd pid did u = .http ⟨404, "Project not found"⟩
    ∧ get_document_metadata gp gd pid did u = .http ⟨404, "Project not found"⟩ := by
  have he : ensure_project_owner_helper gp pid u = .error ⟨404, "Project not found"⟩ := by
    simp [ensure_project_owner_helper, h]
  refine ⟨he, ?_, ?_, ?_, ?_, ?_⟩ <;>
    simp [get_documents_from_project, upload_document, get_document_from_project,
      delete_document_from_project, get_document_metadata, he]

/-- Witness for C6 at an empty project store and an arbitrary requester. -/
theorem C6_missing_project_yields_not_found_witness :
    ((fun _ : Nat => (none : Option Project)) 1 = none ∧
      ensure_project_owner_helper (fun _ => none) 1 ⟨7, "u@x.com", "h", true⟩
        = .error ⟨404, "Project not found"⟩ ∧
      get_document_metadata (fun _ => none) (fun _ => .ok []) 1 2
        ⟨7, "u@x.com", "h", true⟩ = .http ⟨404, "Project not found"⟩) := by
  have h := C6_missing_project_yields_not_found (fun _ => none) (fun _ => .ok [])
    (fun _ _ => .error "e") (fun _ _ => .ok ()) 1 2 ⟨7, "u@x.com", "h", true⟩ rfl
  exact ⟨rfl, h.1, h.2.2.2.2.2⟩

/-- C7 counterexample: the claim says an unknown-email login failure and a
wrong-password login failure are externally the same single
InvalidCredentials outcome.  On the code they differ at this input: with a
store holding only the active user a@x.com whose password is pw123, the
unknown email gets 404 while the wrong password gets 401
"Invalid email or password". -/
theorem C7_login_failure_causes_differ :
    login_user "key"
        (fun e => if e = "a@x.com" then some ⟨1, "a@x.com", "H", true⟩ else none)
        (fun p _ => p == "pw123") "b@x.com" "pw123" 0
      = .http ⟨404, "User not found"⟩
    ∧ login_user "key"
        (fun e => if e = "a@x.com" then some ⟨1, "a@x.com", "H", true⟩ else none)
        (fun p _ => p == "pw123") "a@x.com" "wrong" 0
      = .http ⟨401, "Invalid email or password"⟩
    ∧ login_user "key"
        (fun e => if e = "a@x.com" then some ⟨1, "a@x.com", "H", true⟩ else none)
        (fun p _ => p == "pw123") "b@x.com" "pw123" 0
      ≠ login_user "key"
        (fun e => if e = "a@x.com" then some ⟨1, "a@x.com", "H", true⟩ else none)
        (fun p _ => p == "pw123") "a@x.com" "wrong" 0 := by
  exact ⟨rfl, rfl, by decide⟩

/-- C7 (amended): the two failing causes are distinguishable, not collapsed:
an email unknown to the store fails with 404 carrying the user-not-found
message, while a known active email with a wrong password fails with 401
"Invalid email or password", and the two outcomes are unequal. -/
theorem C7_login_failures_distinguishable (k : String) (ge : String → Option User)
    (checkpw : String → String → Bool) (e1 e2 pw1 pw2 : String) (u : User)
    (now : Nat) (h1 : ge e1 = none) (h2 : ge e2 = some u)
    (h3 : u.is_active = true) (h4 : checkpw pw2 u.password_hash = false) :
    login_user k ge checkpw e1 pw1 now = .http ⟨404, "User not found"⟩
    ∧ login_user k ge checkpw e2 pw2 now
      = .http ⟨401, "Invalid email or password"⟩
    ∧ login_user k ge checkpw e1 pw1 now ≠ login_user k ge checkpw e2 pw2 now := by
  have ha : login_user k ge checkpw e1 pw1 now = .http ⟨404, "User not found"⟩ := by
    simp [login_user, h1]
  have hb : login_user k ge checkpw e2 pw2 now
      = .http ⟨401, "Invalid email or password"⟩ := by
    simp [login_user, h2, h3, h4]
  exact ⟨ha, hb, by simp [ha, hb]⟩

/-- Witness for C7 (amended) at the store holding only active user a@x.com
with password pw123. -/
theorem C7_login_failures_distinguishable_witness :
    ((fun e => if e = "a@x.com" then some (⟨1, "a@x.com", "H", true⟩ : User)
        else none) "b@x.com" = none ∧
      login_user "key"
        (fun e => if e = "a@x.com" then some ⟨1, "a@x.com", "H", true⟩ else none)
        (fun p _ => p == "pw123") "b@x.com" "pw123" 0
      = .http ⟨404, "User not found"⟩) := by
  refine ⟨by decide, ?_⟩
  exact (C7_login_failures_distinguishable "key"
    (fun e => if e = "a@x.com" then some ⟨1, "a@x.com", "H", true⟩ else none)
    (fun p _ => p == "pw123") "b@x.com" "a@x.com" "pw123" "wrong"
    ⟨1, "a@x.com", "H", true⟩ 0 (by decide) (by decide) rfl (by decide)).1

/-- C8: the claim says a validly signed, unexpired token whose sub claim is
not parseable as a numeric user id makes identity resolution fail with the
InvalidToken 401 error, not an unhandled internal error.  On the code
int("abc") raises a ValueError that no except clause of get_current_user
catches (only InvalidTokenError is caught), so the request ends in an
unhandled internal error rather than a 401 response. -/
theorem C8_non_numeric_sub_raises_value_error :
    get_current_user "key"
        (fun i => if i = 1 then some ⟨1, "a@x.com", "h", true⟩ else none)
        ⟨⟨some "abc", some "a@x.com", 0, 100⟩, "key", ALGORITHM⟩ 50
      = .valueError
    ∧ get_current_user "key"
        (fun i => if i = 1 then some ⟨1, "a@x.com", "h", true⟩ else none)
        ⟨⟨some "abc", some "a@x.com", 0, 100⟩, "key", ALGORITHM⟩ 50
      ≠ .http ⟨401, "Invalid token"⟩
    ∧ py_int "abc" = none := by
  exact ⟨by decide, by decide, by decide⟩

/-- C9: when the project exists, the requester passes the access check and no
document of the project has the requested id, the metadata endpoint falls
off the end of its handler and completes with an empty (null) body, while
the sibling retrieval endpoint returns 404 "Document not found" in the same
situation. -/
theorem C9_metadata_empty_body_vs_retrieval_404 (gp : Nat → Option Project)
    (gd : Nat → Except String (List Document)) (pid did : Nat) (u : User)
    (p : Project) (docs : List Document)
    (hp : gp pid = some p) (hacc : p.owner_id = u.id ∨ u.id ∈ p.participants)
    (hd : gd pid = .ok docs) (habs : ∀ d ∈ docs, d.id ≠ did) :
    get_document_metadata gp gd pid did u = .empty
    ∧ get_document_from_project gp gd pid did u
      = .http ⟨404, "Document not found"⟩ := by
  have hok : ensure_project_owner_helper gp pid u = .ok p := by
    rcases hacc with h | h <;> simp [ensure_project_owner_helper, hp, h]
  have hfind : docs.find? (fun d => d.id == did) = none :=
    List.find?_eq_none.mpr (fun d hd' => by simpa using habs d hd')
  exact ⟨by simp [get_document_metadata, hok, hd, hfind],
    by simp [get_document_from_project, hok, hd, hfind]⟩

/-- Witness for C9: owner 1 queries document 2 of project 5, which holds
only document 3. -/
theorem C9_metadata_empty_body_vs_retrieval_404_witness :
    ((fun _ : Nat => some (⟨5, "p", "d", 1, []⟩ : Project)) 5
        = some ⟨5, "p", "d", 1, []⟩ ∧
      get_document_metadata (fun _ => some ⟨5, "p", "d", 1, []⟩)
        (fun _ => .ok [⟨3, "f.txt", 3, "text/plain", 5, 1⟩]) 5 2
        ⟨1, "o@x.com", "h", true⟩ = .empty ∧
      get_document_from_project (fun _ => some ⟨5, "p", "d", 1, []⟩)
        (fun _ => .ok [⟨3, "f.txt", 3, "text/plain", 5, 1⟩]) 5 2
        ⟨1, "o@x.com", "h", true⟩ = .http ⟨404, "Document not found"⟩) := by
  have h := C9_metadata_empty_body_vs_retrieval_404
    (fun _ => some ⟨5, "p", "d", 1, []⟩)
    (fun _ => .ok [⟨3, "f.txt", 3, "text/plain", 5, 1⟩]) 5 2
    ⟨1, "o@x.com", "h", true⟩ ⟨5, "p", "d", 1, []⟩
    [⟨3, "f.txt", 3, "text/plain", 5, 1⟩] rfl (Or.inl rfl) rfl
    (by intro d hd; simp at hd; simp [hd])
  exact ⟨rfl, h.1, h.2⟩

/-- C10: at login, an existing user record with is_active false fails with
the inactive-account error regardless of the password check: the activity
test at routes_auth.py line 143 precedes the bcrypt comparison, so the
outcome is the same for every possible checkpw function. -/
theorem C10_inactive_account_checked_before_password (k : String)
    (ge : String → Option User) (email pw : String) (u : User) (now : Nat)
    (h1 : ge email = some u) (h2 : u.is_active = false) :
    ∀ checkpw : String → String → Bool,
      login_user k ge checkpw email pw now = .http ⟨401, "User is not active"⟩ := by
  intro checkpw
  simp [login_user, h1, h2]

/-- Witness for C10 at a store holding the inactive user a@x.com, with a
password check that would accept the supplied password. -/
theorem C10_inactive_account_checked_before_password_witness :
    ((fun e => if e = "a@x.com" then some (⟨1, "a@x.com", "H", false⟩ : User)
        else none) "a@x.com" = some ⟨1, "a@x.com", "H", false⟩ ∧
      login_user "key"
        (fun e => if e = "a@x.com" then some ⟨1, "a@x.com", "H", false⟩ else none)
        (fun _ _ => true) "a@x.com" "pw123" 0
      = .http ⟨401, "User is not active"⟩) := by
  refine ⟨by decide, ?_⟩
  exact C10_inactive_account_checked_before_password "key"
    (fun e => if e = "a@x.com" then some ⟨1, "a@x.com", "H", false⟩ else none)
    "a@x.com" "pw123" ⟨1, "a@x.com", "H", false⟩ 0 (by decide) rfl
    (fun _ _ => true)

end PMAPI
